import Mathlib

/-!
# Verification of the land-tax extraction pipeline (`src/land.py`)

A shallow embedding of the extraction-and-normalization pipeline of
`src/land.py`.  Pandas cells are `Option String` (`none` models `NaN`);
a pandas `DataFrame` produced by the table-detection service is a
`RawTable` (a column count plus a list of rows of cells); Python code
that can raise an uncaught exception is modelled in the `Option` monad
(`none` = the exception propagates and the program aborts).

Python string primitives (`str.lower`, `str.strip`, slicing, `in`,
`str.find`) are modelled over `List Char` so that every definition
evaluates by kernel reduction.
-/

namespace LandTax

/-! ## Python string primitives -/

/-- ASCII lower-casing of one character, as `str.lower` acts on the
ASCII range that all keywords and labels in `land.py` use. -/
def pyCharLower (c : Char) : Char :=
  if 'A' ≤ c ∧ c ≤ 'Z' then Char.ofNat (c.toNat + 32) else c

/-- `str.lower`. -/
def strLower (s : String) : String := ⟨s.data.map pyCharLower⟩

/-- Python whitespace for `str.strip`: space, tab, newline, carriage
return, vertical tab, form feed. -/
def pyIsSpace (c : Char) : Bool :=
  c = ' ' || c = '\t' || c = '\n' || c = '\r' || c = '\x0b' || c = '\x0c'

/-- `str.strip()`: drop leading and trailing whitespace. -/
def pyStrip (s : String) : String :=
  ⟨((s.data.dropWhile pyIsSpace).reverse.dropWhile pyIsSpace).reverse⟩

/-- `sub` is a prefix of `l` (character-wise). -/
def isPrefixChars : List Char → List Char → Bool
  | [], _ => true
  | _ :: _, [] => false
  | a :: as, b :: bs => a == b && isPrefixChars as bs

/-- Index of the first occurrence of `sub` in `l`
(`str.find` returning `-1` is modelled by `none`). -/
def findSubIdx (sub : List Char) : List Char → Option Nat
  | [] => if isPrefixChars sub [] then some 0 else none
  | l@(_ :: rest) =>
    if isPrefixChars sub l then some 0
    else (findSubIdx sub rest).map (· + 1)

/-- `s.find(sub) != -1`, i.e. Python `sub in s`. -/
def strContainsSub (s sub : String) : Bool := (findSubIdx sub.data s.data).isSome

/-- `s.endswith(suffix)`. -/
def pyEndsWith (s suffix : String) : Bool :=
  isPrefixChars suffix.data.reverse s.data.reverse

/-- Python slice `s[:n]` (`n ≥ 0`): the first `n` characters, clamped. -/
def pySliceFirst (s : String) (n : Nat) : String := ⟨s.data.take n⟩

/-- Python slice `s[-n:]`: the last `n` characters, clamped — except that
`n = 0` gives `s[-0:] = s[0:] = s`, the whole string. -/
def pySliceLast (s : String) (n : Nat) : String :=
  if n = 0 then s else ⟨s.data.drop (s.data.length - n)⟩

/-! ## Cells

A pandas cell: `none` is `NaN` (`pd.isna`), `some v` a string value. -/

/-- A cell of a DataFrame. -/
abbrev Cell := Option String

/-- Python `str(cell)`: `str(nan) = "nan"`. -/
def cellStr : Cell → String
  | none => "nan"
  | some s => s

/-! ## Field Extractor (`read_and_extract_patterns`, land.py:12-39)

Every regex of the fixed pattern set has the shape `label(.*)` and is
searched with `re.IGNORECASE`, so `re.search` succeeds exactly at the
first case-insensitive occurrence of the literal `label`, and group 1
is the greedy rest of the line after the label (`.` does not cross a
newline). -/

/-- Group 1 of `label(.*)`: the characters up to the next newline. -/
def takeUntilNewline : List Char → List Char
  | [] => []
  | c :: cs => if c = '\n' then [] else c :: takeUntilNewline cs

/-- `re.search(label + "(.*)", text, re.IGNORECASE)`, returning group 1
of the first match, or `none` when the pattern does not match. -/
def searchCaptureGroup (label text : String) : Option String :=
  (findSubIdx (strLower label).data (strLower text).data).map
    (fun i => ⟨takeUntilNewline (text.data.drop (i + label.data.length))⟩)

/-- The fixed ordered pattern set of `main` (land.py:105-114), as
(field name, literal label before `(.*)`). -/
def patterns : List (String × String) :=
  [("Name", "Name:"),
   ("Client ID", "Client ID:"),
   ("Correspondence ID", "Correspondence ID:"),
   ("Issue date", "Issue date:"),
   ("Aggregated taxable land value", "Aggregated taxable land value"),
   ("Less threshold", "Less threshold"),
   ("Subtotal", "Subtotal"),
   ("Total tax payable", "Total tax payable")]

/-- `read_and_extract_patterns` (land.py:33-37), given the text the OCR
collaborator returned for the document: for each pattern, the first
case-insensitive match's group 1 stripped, else the empty string. -/
def read_and_extract_patterns (text : String) : List (String × String) :=
  patterns.map (fun p =>
    (p.1, match searchCaptureGroup p.2 text with
          | some v => pyStrip v
          | none => ""))

/-! ## Tables -/

/-- A `RawTable`: a DataFrame from the table-detection service.
`ncols` is `len(table.columns)`; each row is a list of cells (a
rectangular frame has every row of length `ncols`). -/
structure RawTable where
  ncols : Nat
  rows : List (List Cell)
deriving DecidableEq, Repr

/-- `table.empty`: no rows or no columns. -/
def RawTable.isEmptyTable (t : RawTable) : Bool :=
  t.rows.isEmpty || t.ncols == 0

/-- `table.iloc[0, 0]`: the first cell of the first row. -/
def RawTable.firstCell (t : RawTable) : Cell :=
  (t.rows.headD []).headD none

/-- `filter_tables_by_first_cell_value` (land.py:50-52):
`[table for table in tables if not table.empty and len(table.columns) > 0
  and str(table.iloc[0, 0]).lower().find(target_substring.lower()) != -1]`. -/
def filter_tables_by_first_cell_value (tables : List RawTable) (target_substring : String) :
    List RawTable :=
  tables.filter (fun t =>
    !t.isEmptyTable && decide (0 < t.ncols) &&
      strContainsSub (strLower (cellStr t.firstCell)) (strLower target_substring))

/-! ## Table Normalizer (`process_and_append_tables`, land.py:54-95) -/

/-- A `NormalizedRow`: the 10 positionally renamed columns plus the
appended 11th `Filename` column (land.py:62-80). -/
structure NormalizedRow where
  land_item_no : Cell
  land_item_and_property_id : Cell
  notes : Cell
  pct_owned : Cell
  land_taxable_value : Cell
  surcharge_taxable_value : Cell
  year1 : Cell
  year2 : Cell
  year3 : Cell
  average_land_value : Cell
  filename : String
deriving DecidableEq, Repr

/-- Positional column renaming of a 10-cell row, plus the `Filename`
column set to the owning document's filename. -/
def toNormalizedRow (cells : List Cell) (filename : String) : NormalizedRow :=
  { land_item_no := cells.getD 0 none
    land_item_and_property_id := cells.getD 1 none
    notes := cells.getD 2 none
    pct_owned := cells.getD 3 none
    land_taxable_value := cells.getD 4 none
    surcharge_taxable_value := cells.getD 5 none
    year1 := cells.getD 6 none
    year2 := cells.getD 7 none
    year3 := cells.getD 8 none
    average_land_value := cells.getD 9 none
    filename := filename }

/-- Land.py:83, per row:
`row["Year 2"][-len(row["Year 1"]):] if pd.isna(row["Year 3"]) and not
pd.isna(row["Year 2"]) else row["Year 3"]`.
When the branch is taken with `Year 1 = NaN`, `len(nan)` raises
`TypeError` (modelled by `none`). -/
def repair_year3_cell (r : NormalizedRow) : Option Cell :=
  match r.year3, r.year2 with
  | none, some y2 =>
    match r.year1 with
    | some y1 => some (some (pySliceLast y2 y1.data.length))
    | none => none
  | y3, _ => some y3

/-- Land.py:84, per row:
`row["Year 2"][:len(str(row["Year 1"]))] if pd.notna(row["Year 1"]) else
row["Year 2"]`.
When `Year 1` is present but `Year 2 = NaN`, slicing the float `nan`
raises `TypeError` (modelled by `none`). -/
def repair_year2_cell (r : NormalizedRow) : Option Cell :=
  match r.year1 with
  | some y1 =>
    match r.year2 with
    | some y2 => some (some (pySliceFirst y2 y1.data.length))
    | none => none
  | none => some r.year2

/-- The row-wise Year-column repair (land.py:82-84).  Line 83 reads the
original `Year 2`/`Year 1`/`Year 3`; line 84 reads the original
`Year 2` and `Year 1` (the line-83 assignment only replaced `Year 3`),
so the two column assignments combine into one per-row update. -/
def repair_row (r : NormalizedRow) : Option NormalizedRow := do
  let y3 ← repair_year3_cell r
  let y2 ← repair_year2_cell r
  pure { r with year3 := y3, year2 := y2 }

/-- `pandas.DataFrame.apply(axis=1)` over rows whose per-row function
can raise: every row is mapped, and one raising row aborts the whole
program (`none`). -/
def mapOption {α β : Type} (f : α → Option β) : List α → Option (List β)
  | [] => some []
  | row :: more =>
    match f row with
    | none => none
    | some out =>
      match mapOption f more with
      | none => none
      | some outs => some (out :: outs)

/-- Processing of one selected table (body of the loop of
`process_and_append_tables`, land.py:55-89): drop the first 3 rows;
if the column count is exactly 10, rename, append the filename and
repair, contributing the resulting rows; otherwise contribute no rows
and one warning naming the filename.  Dropping rows does not change
`len(table.columns)`. -/
def process_one_table (t : RawTable) (pdf_filename : String) :
    Option (List NormalizedRow × List String) :=
  let dropped := t.rows.drop 3
  if t.ncols = 10 then
    match mapOption repair_row (dropped.map (fun cs => toNormalizedRow cs pdf_filename)) with
    | none => none
    | some repaired => some (repaired, [])
  else
    some ([], ["Ignoring table in " ++ pdf_filename ++ " due to mismatched number of columns."])

/-- The loop of `process_and_append_tables` with its accumulated rows
and warnings. -/
def append_tables_loop (pdf_filename : String) (acc : List NormalizedRow × List String) :
    List RawTable → Option (List NormalizedRow × List String)
  | [] => some acc
  | t :: ts =>
    match process_one_table t pdf_filename with
    | none => none
    | some rw => append_tables_loop pdf_filename (acc.1 ++ rw.1, acc.2 ++ rw.2) ts

/-- `process_and_append_tables` (land.py:54-95) over the filtered tables
of one document: the rows appended to `appended_tables` and the warnings
shown, or `none` when the repair of some row raises. -/
def process_and_append_tables (filtered_tables : List RawTable) (pdf_filename : String) :
    Option (List NormalizedRow × List String) :=
  append_tables_loop pdf_filename ([], []) filtered_tables

/-! ## Document Aggregator (`main`, land.py:155-178) -/

/-- A row of `final_result` after the derived `PID` column is added. -/
structure ResultRowPre where
  row : NormalizedRow
  pid : Cell
deriving DecidableEq, Repr

/-- `Series.shift(-1)`: element `i` becomes element `i+1`, the last
becomes `NaN`. -/
def shift_up (xs : List Cell) : List Cell :=
  match xs with
  | [] => []
  | _ :: t => t ++ [none]

/-- Lines 160-161: `final_result["PID"] =
final_result["Land Item and Property ID"].shift(-1)` then
`final_result.loc[mask, "PID"] = final_result["Land Item and Property ID"]`
where `mask = final_result["Land Item and Property ID"].str.contains("PID")`
(case-sensitive).  `.str.contains` yields `NaN` for a `NaN` cell and
`.loc` with a mask containing `NaN` raises
`ValueError: Cannot mask with non-boolean array containing NA / NaN values`,
so the step succeeds only when every row's
"Land Item and Property ID" is present (modelled by `none` otherwise). -/
def derive_pid (rows : List NormalizedRow) : Option (List ResultRowPre) :=
  if rows.all (fun r => r.land_item_and_property_id.isSome) then
    some ((rows.zip (shift_up (rows.map (·.land_item_and_property_id)))).map
      (fun p =>
        { row := p.1
          pid := if strContainsSub (cellStr p.1.land_item_and_property_id) "PID"
                 then p.1.land_item_and_property_id
                 else p.2 }))
  else none

/-- Line 164: `final_result.dropna(subset=["Land Item No."])`. -/
def drop_missing_item_no (rows : List ResultRowPre) : List ResultRowPre :=
  rows.filter (fun r => r.row.land_item_no.isSome)

/-- One row of `pattern_values_df`: a FieldMap plus the `Filename` key
(land.py:135). -/
structure FieldRow where
  fields : List (String × String)
  filename : String
deriving DecidableEq, Repr

/-- One row of the merged output: the FieldMap row's columns plus, when
a table row with the same `Filename` matched, that row's columns
(`none` = the right side's columns are `NaN`). -/
structure MergedRow where
  fields : List (String × String)
  filename : String
  row : Option ResultRowPre
deriving DecidableEq, Repr

/-- Line 174: `pd.merge(pattern_values_df, final_result, on="Filename",
how="left")` — the FieldMap table is the LEFT side: every FieldMap row
is kept, matched against the table rows sharing its `Filename` (one
output row per match, in order), or kept once with `NaN` table columns
when no table row matches. -/
def merge_left (fms : List FieldRow) (rows : List ResultRowPre) : List MergedRow :=
  fms.flatMap (fun fm =>
    let ms := rows.filter (fun r => r.row.filename = fm.filename)
    if ms.isEmpty then [{ fields := fm.fields, filename := fm.filename, row := none }]
    else ms.map (fun r => { fields := fm.fields, filename := fm.filename, row := some r }))

/-! ## The batch loop (`main`, land.py:99-180)

The two external collaborators are injected as data: `text` is what the
OCR service returns for the document, and `tables` is `none` when
`tabula.read_pdf` raises (the adapter `extract_tables_from_pdf`,
land.py:41-48, then reports the error — an `st.error` naming the file,
whose trailing exception text is not part of the model — and returns
`None`), else the detected tables. -/

/-- One uploaded document together with its external-service results. -/
structure Doc where
  name : String
  text : String
  tables : Option (List RawTable)
deriving DecidableEq, Repr

/-- The loop state of `main`: the accumulated flattened
`appended_tables`, `pattern_values_list`, and the warnings/errors shown. -/
structure BatchState where
  appended : List NormalizedRow
  fieldmaps : List FieldRow
  messages : List String
deriving DecidableEq, Repr

/-- The body of the per-document loop (land.py:124-153).  A non-PDF name
is skipped with a warning.  Otherwise the FieldMap is extracted and —
`pattern_values` being a dict with all 8 keys, hence always truthy —
always appended.  A failed table service (`tables = None`) reported an
error inside the adapter and contributes nothing further; an empty table
list is falsy and contributes nothing silently; otherwise the filtered
tables are processed (which aborts the program if a repair raises). -/
def process_document (s : BatchState) (d : Doc) : Option BatchState :=
  if !pyEndsWith (strLower d.name) ".pdf" then
    some { s with messages := s.messages ++ ["Skipping non-PDF file: " ++ d.name] }
  else
    let s1 : BatchState :=
      { s with fieldmaps :=
          s.fieldmaps ++ [{ fields := read_and_extract_patterns d.text, filename := d.name }] }
    match d.tables with
    | none =>
      some { s1 with messages := s1.messages ++ ["Error extracting tables from " ++ d.name] }
    | some tables =>
      if tables.isEmpty then some s1
      else
        let filtered := filter_tables_by_first_cell_value tables "Land"
        if filtered.isEmpty then
          some { s1 with messages := s1.messages ++
            ["No tables found with the first cell containing 'Land' in " ++ d.name] }
        else
          match process_and_append_tables filtered d.name with
          | none => none
          | some rw =>
            some { s1 with appended := s1.appended ++ rw.1, messages := s1.messages ++ rw.2 }

/-- The batch loop (land.py:124) from a given state: the documents are
processed in order; an uncaught exception in one aborts the program. -/
def run_from (s : BatchState) : List Doc → Option BatchState
  | [] => some s
  | d :: rest =>
    match process_document s d with
    | none => none
    | some s' => run_from s' rest

/-- The whole batch loop (land.py:124-153) from the empty state. -/
def run_batch (docs : List Doc) : Option BatchState :=
  run_from { appended := [], fieldmaps := [], messages := [] } docs

/-- `derive_pid` as the spec's §4.6 words it, structurally: each row's
PID is its own "Land Item and Property ID" value when that value
contains the substring "PID", and otherwise the "Land Item and Property
ID" value of the next row in the concatenated sequence (the last row
then has no next row and gets a missing PID). -/
def derived_pid_spec : List NormalizedRow → List ResultRowPre
  | [] => []
  | r :: rest =>
    { row := r
      pid := if strContainsSub (cellStr r.land_item_and_property_id) "PID"
             then r.land_item_and_property_id
             else
               match rest.head? with
               | some r2 => r2.land_item_and_property_id
               | none => none } :: derived_pid_spec rest

/-- What `main` displays at the end (land.py:155-180). -/
inductive FinalDisplay where
  /-- `appended_tables` is empty: "No tables found in the provided PDF files." -/
  | noTables : FinalDisplay
  /-- `pattern_values_list` was empty: the unmerged `final_result`. -/
  | plain : List ResultRowPre → FinalDisplay
  /-- The merged `final_result` (land.py:174). -/
  | merged : List MergedRow → FinalDisplay
deriving DecidableEq, Repr

/-- The end of `main` (land.py:155-178): concatenate the appended rows,
derive `PID`, drop rows with a missing "Land Item No.", and left-merge
`pattern_values_df` with the row set when any FieldMap exists. -/
def main_result (docs : List Doc) : Option FinalDisplay := do
  let s ← run_batch docs
  if s.appended.isEmpty then pure .noTables
  else do
    let pre ← derive_pid s.appended
    let kept := drop_missing_item_no pre
    if s.fieldmaps.isEmpty then pure (.plain kept)
    else pure (.merged (merge_left s.fieldmaps kept))

/-! ## Semantics of one pattern, for the Field Extractor's statement

The pattern `label(.*)` under `re.IGNORECASE` matches at position `i` of
the text iff the label occurs there case-insensitively; its group 1 is
the rest of that line. -/

/-- The regex `label(.*)` matches `text` at position `i`
(case-insensitively; `(.*)` always matches). -/
def labelMatchAt (label text : String) (i : Nat) : Prop :=
  isPrefixChars (strLower label).data ((strLower text).data.drop i) = true

/-- Group 1 of a match of `label(.*)` at position `i`: the characters
after the label up to the next newline. -/
def captureAt (label text : String) (i : Nat) : String :=
  ⟨takeUntilNewline (text.data.drop (i + label.data.length))⟩

/-! ## Concrete inputs used by witnesses and counterexamples -/

/-- A normalized row with every cell missing. -/
def baseRow : NormalizedRow :=
  { land_item_no := none, land_item_and_property_id := none, notes := none
    pct_owned := none, land_taxable_value := none, surcharge_taxable_value := none
    year1 := none, year2 := none, year3 := none, average_land_value := none
    filename := "a.pdf" }

/-- A row whose "Year 3" is already present but whose "Year 2" is longer
than "Year 1". -/
def c2_row : NormalizedRow :=
  { baseRow with land_item_no := some "1", land_item_and_property_id := some "LOT 5"
                 year1 := some "2022", year2 := some "123456789", year3 := some "2023" }

/-- A row with the merged Year cell and an empty "Year 1" value. -/
def c3_cex_row : NormalizedRow :=
  { baseRow with year1 := some "", year2 := some "20222023", year3 := none }

/-- The spec's Year-repair example row: Year 1 = "2022",
Year 2 = "20222023" (merged), Year 3 missing. -/
def c3_ex_row : NormalizedRow :=
  { baseRow with year1 := some "2022", year2 := some "20222023", year3 := none }

/-- The spec's PID example row A: "Land Item and Property ID" = "LOT 5". -/
def c4_rowA : NormalizedRow :=
  { baseRow with land_item_no := some "1", land_item_and_property_id := some "LOT 5" }

/-- The spec's PID example row B: the "PID 12345" annotation row, with
a missing "Land Item No.". -/
def c4_rowB : NormalizedRow :=
  { baseRow with land_item_no := none, land_item_and_property_id := some "PID 12345" }

/-- A table whose first cell is "LAND TAX LIABILITY". -/
def c6_land : RawTable := { ncols := 1, rows := [[some "LAND TAX LIABILITY"]] }

/-- A table whose first cell is "Rates Summary". -/
def c6_rates : RawTable := { ncols := 1, rows := [[some "Rates Summary"]] }

/-- A row where "Year 3" is missing, "Year 2" present, "Year 1" missing. -/
def c9_row : NormalizedRow :=
  { baseRow with year1 := none, year2 := some "20222023", year3 := none }

/-- A final row whose "Land Item and Property ID" does not contain
"PID" and whose "Land Item No." is present. -/
def c10_row : NormalizedRow :=
  { baseRow with land_item_no := some "7", land_item_and_property_id := some "LOT 9" }

/-- One data row of the end-to-end example's table. -/
def c1_data_row (i : String) : List Cell :=
  [some i, some ("LOT " ++ i), none, none, none, none,
   some "2022", some "2022", some "2023", none]

/-- The end-to-end example's table: a "Land" banner cell, three
header/banner rows to drop, three valid data rows. -/
def c1_table : RawTable :=
  { ncols := 10
    rows := [[some "Land Tax Liability", none, none, none, none, none, none, none, none, none],
             [none, none, none, none, none, none, none, none, none, none],
             [none, none, none, none, none, none, none, none, none, none],
             c1_data_row "1", c1_data_row "2", c1_data_row "3"] }

/-- End-to-end example, document 1: yields 3 valid NormalizedRows and a
FieldMap with a matched "Name". -/
def c1_doc1 : Doc := { name := "a.pdf", text := "Name: Alice", tables := some [c1_table] }

/-- End-to-end example, document 2: zero tables, all-empty FieldMap. -/
def c1_doc2 : Doc := { name := "b.pdf", text := "", tables := some [] }

/-- The final merged rows of the end-to-end example batch. -/
def c1_rows : List MergedRow :=
  match main_result [c1_doc1, c1_doc2] with
  | some (FinalDisplay.merged rs) => rs
  | _ => []

/-! ## Helper lemmas -/

/-- A row on which the per-row function raises aborts the whole
row-wise `apply`. -/
theorem mapOption_eq_none_of_mem {α β : Type} (f : α → Option β) :
    ∀ {l : List α} {a : α}, a ∈ l → f a = none → mapOption f l = none := by
  intro l
  induction l with
  | nil => intro a ha _; cases ha
  | cons x xs ih =>
    intro a ha hf
    rcases List.mem_cons.1 ha with h | h
    · subst h
      simp [mapOption, hf]
    · cases hx : f x with
      | none => simp [mapOption, hx]
      | some b => simp [mapOption, hx, ih h hf]

/-- Every row a successful row-wise `apply` produces comes from some
input row. -/
theorem mapOption_some_mem {α β : Type} (f : α → Option β) :
    ∀ {l : List α} {out : List β}, mapOption f l = some out →
      ∀ b ∈ out, ∃ a ∈ l, f a = some b := by
  intro l
  induction l with
  | nil =>
    intro out h b hb
    simp [mapOption] at h
    subst h
    cases hb
  | cons x xs ih =>
    intro out h b hb
    cases hx : f x with
    | none => simp [mapOption, hx] at h
    | some y =>
      cases hxs : mapOption f xs with
      | none => simp [mapOption, hx, hxs] at h
      | some ys =>
        simp [mapOption, hx, hxs] at h
        subst h
        rcases List.mem_cons.1 hb with h | h
        · exact ⟨x, List.mem_cons_self x xs, h ▸ hx⟩
        · rcases ih hxs b h with ⟨a, ha, hfa⟩
          exact ⟨a, List.mem_cons_of_mem x ha, hfa⟩

/-- The Year-column repair changes at most the `Year 2` and `Year 3`
cells of a row; in particular it never changes the `Filename` column. -/
theorem repair_row_shape {r r' : NormalizedRow} (h : repair_row r = some r') :
    r' = { r with year2 := r'.year2, year3 := r'.year3 } := by
  unfold repair_row at h
  cases h3 : repair_year3_cell r with
  | none => simp [h3] at h
  | some y3 =>
    cases h2 : repair_year2_cell r with
    | none => simp [h3, h2] at h
    | some y2 =>
      simp [h3, h2] at h
      subst h
      rfl

/-- The zip-with-shift computation of land.py:160-161 equals the
structural one-row-lookahead of the spec. -/
theorem zip_shift_eq_spec :
    ∀ rows : List NormalizedRow,
      ((rows.zip (shift_up (rows.map (·.land_item_and_property_id)))).map
        (fun p =>
          { row := p.1
            pid := if strContainsSub (cellStr p.1.land_item_and_property_id) "PID"
                   then p.1.land_item_and_property_id
                   else p.2 : ResultRowPre })) = derived_pid_spec rows := by
  intro rows
  induction rows with
  | nil => rfl
  | cons r rest ih =>
    cases rest with
    | nil => rfl
    | cons r2 rest' =>
      show _ :: _ = _ :: _
      refine congrArg₂ _ rfl ?_
      exact ih

/-- When every row's "Land Item and Property ID" is present, the PID
derivation succeeds and computes the spec's lookahead. -/
theorem derive_pid_eq_spec {rows : List NormalizedRow}
    (h : rows.all (fun r => r.land_item_and_property_id.isSome) = true) :
    derive_pid rows = some (derived_pid_spec rows) := by
  unfold derive_pid
  rw [if_pos h, zip_shift_eq_spec]

/-- The last row of the spec's lookahead: its own row paired with its
own value when that contains "PID", else a missing PID. -/
theorem derived_pid_spec_getLast? :
    ∀ {rows : List NormalizedRow} {r : NormalizedRow}, rows.getLast? = some r →
      (derived_pid_spec rows).getLast? =
        some { row := r
               pid := if strContainsSub (cellStr r.land_item_and_property_id) "PID"
                      then r.land_item_and_property_id
                      else none } := by
  intro rows
  induction rows with
  | nil => intro r h; cases h
  | cons a rest ih =>
    intro r h
    cases rest with
    | nil =>
      simp at h
      subst h
      rfl
    | cons b rest' =>
      rw [List.getLast?_cons_cons] at h
      show (_ :: derived_pid_spec (b :: rest')).getLast? = _
      rw [List.getLast?_cons, ih h]
      simp

/-- `findSubIdx` finds an actual occurrence, and the first one. -/
theorem findSubIdx_some_spec (sub : List Char) :
    ∀ {l : List Char} {i : Nat}, findSubIdx sub l = some i →
      isPrefixChars sub (l.drop i) = true ∧
        ∀ j, j < i → isPrefixChars sub (l.drop j) = false := by
  intro l
  induction l with
  | nil =>
    intro i h
    unfold findSubIdx at h
    by_cases hp : isPrefixChars sub [] = true
    · rw [if_pos hp] at h
      cases h
      exact ⟨hp, fun j hj => absurd hj (Nat.not_lt_zero j)⟩
    · rw [if_neg hp] at h
      cases h
  | cons c rest ih =>
    intro i h
    unfold findSubIdx at h
    by_cases hp : isPrefixChars sub (c :: rest) = true
    · rw [if_pos hp] at h
      cases h
      exact ⟨hp, fun j hj => absurd hj (Nat.not_lt_zero j)⟩
    · rw [if_neg hp] at h
      cases hrec : findSubIdx sub rest with
      | none => rw [hrec] at h; cases h
      | some i' =>
        rw [hrec] at h
        simp at h
        subst h
        rcases ih hrec with ⟨h1, h2⟩
        refine ⟨h1, ?_⟩
        intro j hj
        cases j with
        | zero => exact Bool.eq_false_iff.2 hp
        | succ j' => exact h2 j' (Nat.lt_of_succ_lt_succ hj)

/-- When `findSubIdx` fails there is no occurrence at any position. -/
theorem findSubIdx_none_spec (sub : List Char) :
    ∀ {l : List Char}, findSubIdx sub l = none →
      ∀ j, isPrefixChars sub (l.drop j) = false := by
  intro l
  induction l with
  | nil =>
    intro h j
    unfold findSubIdx at h
    by_cases hp : isPrefixChars sub [] = true
    · rw [if_pos hp] at h; cases h
    · simpa using Bool.eq_false_iff.2 hp
  | cons c rest ih =>
    intro h j
    unfold findSubIdx at h
    by_cases hp : isPrefixChars sub (c :: rest) = true
    · rw [if_pos hp] at h; cases h
    · rw [if_neg hp] at h
      cases hrec : findSubIdx sub rest with
      | some i' => rw [hrec] at h; cases h
      | none =>
        cases j with
        | zero => exact Bool.eq_false_iff.2 hp
        | succ j' => exact ih hrec j'

/-- A successful `re.search` of `label(.*)` returns group 1 of the
match at the least matching position. -/
theorem searchCaptureGroup_some_spec {label text v : String}
    (h : searchCaptureGroup label text = some v) :
    ∃ i, labelMatchAt label text i ∧ (∀ j, j < i → ¬ labelMatchAt label text j) ∧
      v = captureAt label text i := by
  unfold searchCaptureGroup at h
  cases hf : findSubIdx (strLower label).data (strLower text).data with
  | none => rw [hf] at h; cases h
  | some i =>
    rw [hf] at h
    simp at h
    rcases findSubIdx_some_spec _ hf with ⟨h1, h2⟩
    refine ⟨i, h1, fun j hj => ?_, ?_⟩
    · simp [labelMatchAt, h2 j hj]
    · rw [← h]; rfl

/-- A failed `re.search` of `label(.*)` means no position matches. -/
theorem searchCaptureGroup_none_spec {label text : String}
    (h : searchCaptureGroup label text = none) :
    ∀ j, ¬ labelMatchAt label text j := by
  intro j
  unfold searchCaptureGroup at h
  cases hf : findSubIdx (strLower label).data (strLower text).data with
  | none => simp [labelMatchAt, findSubIdx_none_spec _ hf j]
  | some i => rw [hf] at h; cases h

/-! ## Claim theorems -/

/-- C2, counterexample: a row whose "Year 3" is already present is NOT
always left unmodified by the repair step — with Year 1 = "2022",
Year 2 = "123456789", Year 3 = "2023", line 84 truncates Year 2 to its
first 4 characters, so the repaired row differs from the original. -/
theorem c2_counterexample :
    repair_row c2_row = some { c2_row with year2 := some "1234" } ∧
    repair_row c2_row ≠ some c2_row := by
  exact ⟨by decide, by decide⟩

/-- C2 (amended): for every row whose "Year 3" is present, the repair
leaves "Year 3" — and every column other than "Year 2" — unchanged; but
when "Year 1" is also present the unconditional second repair step still
truncates "Year 2" to its first len(Year 1) characters (raising when
"Year 2" is missing), and only when "Year 1" is missing is the row left
completely unmodified. -/
theorem c2_year3_present_repair (r : NormalizedRow) (y3 : String)
    (h3 : r.year3 = some y3) :
    (∀ r', repair_row r = some r' → r' = { r with year2 := r'.year2 }) ∧
    (∀ y1 y2, r.year1 = some y1 → r.year2 = some y2 →
      repair_row r = some { r with year2 := some ⟨y2.data.take y1.data.length⟩ }) ∧
    (r.year1 = none → repair_row r = some r) ∧
    (∀ y1, r.year1 = some y1 → r.year2 = none → repair_row r = none) := by
  have hy3 : repair_year3_cell r = some r.year3 := by
    rw [repair_year3_cell, h3]
  refine ⟨?_, ?_, ?_, ?_⟩
  · intro r' h
    rw [repair_row] at h
    rw [hy3] at h
    cases h2 : repair_year2_cell r with
    | none => rw [h2] at h; cases h
    | some y2v =>
      rw [h2] at h
      simp at h
      rw [← h]
  · intro y1 y2 h1 h2
    rw [repair_row, hy3]
    rw [repair_year2_cell, h1, h2]
    rfl
  · intro h1
    have hy2 : repair_year2_cell r = some r.year2 := by
      rw [repair_year2_cell, h1]
    rw [repair_row, hy3, hy2]
    rfl
  · intro y1 h1 h2
    rw [repair_row, hy3]
    rw [repair_year2_cell, h1, h2]
    rfl

/-- C2, witness: the amended statement at the concrete row with
Year 1 = "2022", Year 2 = "123456789", Year 3 = "2023". -/
theorem c2_witness :
    (∀ r', repair_row c2_row = some r' → r' = { c2_row with year2 := r'.year2 }) ∧
    (∀ y1 y2, c2_row.year1 = some y1 → c2_row.year2 = some y2 →
      repair_row c2_row = some { c2_row with year2 := some ⟨y2.data.take y1.data.length⟩ }) ∧
    (c2_row.year1 = none → repair_row c2_row = some c2_row) ∧
    (∀ y1, c2_row.year1 = some y1 → c2_row.year2 = none → repair_row c2_row = none) :=
  c2_year3_present_repair c2_row "2023" rfl

/-- C3, counterexample: with Year 3 missing, Year 2 = "20222023" and
Year 1 present but EMPTY, Python's `s[-0:]` slice is the whole string,
so Year 3 becomes "20222023" — not the trailing substring of length
len(Year 1) = 0 that the claim prescribes. -/
theorem c3_counterexample :
    repair_row c3_cex_row =
      some { c3_cex_row with year3 := some "20222023", year2 := some "" } ∧
    some "20222023" ≠ (some "" : Cell) := by
  exact ⟨by decide, by decide⟩

/-- C3 (amended): for every row where "Year 3" is missing, "Year 2" is
present and "Year 1" is present with a NON-EMPTY value, the repair sets
"Year 3" to the trailing substring of "Year 2" of length len(Year 1)
and truncates "Year 2" to its first len(Year 1) characters.  (With
Year 1 missing the repair raises — claim C9 — and with Year 1 empty
Python's `s[-0:]` makes Year 3 the whole of Year 2.) -/
theorem c3_repair_merged_year (r : NormalizedRow) (y1 y2 : String)
    (h3 : r.year3 = none) (h2 : r.year2 = some y2) (h1 : r.year1 = some y1)
    (hne : y1 ≠ "") :
    repair_row r = some
      { r with year3 := some ⟨y2.data.drop (y2.data.length - y1.data.length)⟩
               year2 := some ⟨y2.data.take y1.data.length⟩ } := by
  have hlen : y1.data.length ≠ 0 := by
    intro h0
    apply hne
    cases y1 with
    | mk d =>
      cases d with
      | nil => rfl
      | cons c cs => simp at h0
  have hlen' : y1.length ≠ 0 := hlen
  have hy3' : repair_year3_cell r = some (some (pySliceLast y2 y1.data.length)) := by
    rw [repair_year3_cell, h3, h2, h1]
  have hy2' : repair_year2_cell r = some (some (pySliceFirst y2 y1.data.length)) := by
    rw [repair_year2_cell, h1, h2]
  rw [repair_row, hy3', hy2']
  simp [pySliceLast, pySliceFirst, hlen, hlen']

/-- C3, witness: the spec's example — Year 1 = "2022",
Year 2 = "20222023", Year 3 missing — yields Year 3 = "2023" and
Year 2 = "2022". -/
theorem c3_witness :
    repair_row c3_ex_row =
      some { c3_ex_row with year3 := some "2023", year2 := some "2022" } := by
  have h := c3_repair_merged_year c3_ex_row "2022" "20222023" rfl rfl rfl (by decide)
  exact h.trans (by decide)

/-- C9: for every row where "Year 3" is missing and "Year 2" is present
but "Year 1" is missing, line 83 evaluates `len(NaN)` and raises a
`TypeError`: the repair produces no row, and the whole row-wise apply
over any table containing such a row aborts. -/
theorem c9_repair_missing_year1 (r : NormalizedRow)
    (h3 : r.year3 = none) (h2 : r.year2.isSome = true) (h1 : r.year1 = none) :
    repair_row r = none ∧
      ∀ rows : List NormalizedRow, r ∈ rows → mapOption repair_row rows = none := by
  obtain ⟨y2, hy2⟩ := Option.isSome_iff_exists.1 h2
  have hr : repair_row r = none := by
    rw [repair_row, repair_year3_cell, h3, hy2, h1]
    rfl
  exact ⟨hr, fun rows hmem => mapOption_eq_none_of_mem repair_row hmem hr⟩

/-- C9, witness: the failing row Year 1 missing, Year 2 = "20222023",
Year 3 missing. -/
theorem c9_witness :
    repair_row c9_row = none ∧
      ∀ rows : List NormalizedRow, c9_row ∈ rows → mapOption repair_row rows = none :=
  c9_repair_missing_year1 c9_row rfl (by decide) rfl

/-- C5: for every input table, the normalizer contributes zero rows and
a warning naming the filename whenever the column count (unchanged by
dropping the first 3 rows) is not exactly 10; and when it is exactly
10, every surviving row carries the owning document's filename in its
`Filename` column. -/
theorem c5_normalizer_validation (t : RawTable) (fname : String) :
    (t.ncols ≠ 10 →
      process_one_table t fname =
        some ([], ["Ignoring table in " ++ fname ++ " due to mismatched number of columns."])) ∧
    (t.ncols = 10 → ∀ rows warns, process_one_table t fname = some (rows, warns) →
      ∀ r ∈ rows, r.filename = fname) := by
  constructor
  · intro h
    rw [process_one_table, if_neg h]
  · intro h rows warns hp r hr
    rw [process_one_table, if_pos h] at hp
    cases hmo : mapOption repair_row ((t.rows.drop 3).map (fun cs => toNormalizedRow cs fname)) with
    | none => rw [hmo] at hp; cases hp
    | some rep =>
      rw [hmo] at hp
      simp at hp
      rcases hp with ⟨hrows, _⟩
      subst hrows
      rcases mapOption_some_mem repair_row hmo r hr with ⟨a, ha, hfa⟩
      rcases List.mem_map.1 ha with ⟨cs, _, rfl⟩
      have hshape := repair_row_shape hfa
      rw [hshape]
      rfl

/-- C6: a raw table is selected iff it is non-empty, has at least one
column and its first cell's text contains "Land" case-insensitively;
selection preserves order; "LAND TAX LIABILITY" is selected and
"Rates Summary" is not. -/
theorem c6_table_selection :
    (∀ (ts : List RawTable) (target : String),
      (filter_tables_by_first_cell_value ts target).Sublist ts) ∧
    (∀ (ts : List RawTable) (t : RawTable),
      t ∈ filter_tables_by_first_cell_value ts "Land" ↔
        t ∈ ts ∧ t.rows ≠ [] ∧ 0 < t.ncols ∧
          strContainsSub (strLower (cellStr t.firstCell)) (strLower "Land") = true) ∧
    c6_land ∈ filter_tables_by_first_cell_value [c6_land, c6_rates] "Land" ∧
    c6_rates ∉ filter_tables_by_first_cell_value [c6_land, c6_rates] "Land" := by
  refine ⟨fun ts target => List.filter_sublist ts, ?_, by decide, by decide⟩
  intro ts t
  rw [filter_tables_by_first_cell_value, List.mem_filter]
  simp only [RawTable.isEmptyTable, Bool.and_eq_true, Bool.not_eq_true', Bool.or_eq_false_iff,
    List.isEmpty_eq_false, beq_eq_false_iff_ne, decide_eq_true_eq, ne_eq]
  constructor
  · rintro ⟨hmem, ⟨⟨hrows, _⟩, hpos⟩, hsub⟩
    exact ⟨hmem, hrows, hpos, hsub⟩
  · rintro ⟨hmem, hrows, hpos, hsub⟩
    exact ⟨hmem, ⟨⟨hrows, Nat.pos_iff_ne_zero.1 hpos⟩, hpos⟩, hsub⟩

/-- C7: for every input text the Field Extractor returns all 8 fixed
field names as keys in pattern-definition order; each entry's value is
the stripped captured group of the FIRST case-insensitive match of its
pattern, or the empty string when the pattern matches nowhere (so a
missing match never raises); and re-extraction of identical text gives
the identical FieldMap. -/
theorem c7_field_extractor : ∀ text : String,
    ((read_and_extract_patterns text).map Prod.fst =
      ["Name", "Client ID", "Correspondence ID", "Issue date",
       "Aggregated taxable land value", "Less threshold", "Subtotal",
       "Total tax payable"]) ∧
    (∀ nv, nv ∈ read_and_extract_patterns text →
      ∃ label, (nv.1, label) ∈ patterns ∧
        ((∃ i, labelMatchAt label text i ∧ (∀ j, j < i → ¬ labelMatchAt label text j) ∧
            nv.2 = pyStrip (captureAt label text i)) ∨
         ((∀ j, ¬ labelMatchAt label text j) ∧ nv.2 = ""))) ∧
    read_and_extract_patterns text = read_and_extract_patterns text := by
  intro text
  refine ⟨rfl, ?_, rfl⟩
  intro nv hmem
  rw [read_and_extract_patterns] at hmem
  rcases List.mem_map.1 hmem with ⟨p, hp, rfl⟩
  refine ⟨p.2, hp, ?_⟩
  cases hs : searchCaptureGroup p.2 text with
  | some v =>
    left
    rcases searchCaptureGroup_some_spec hs with ⟨i, h1, h2, hv⟩
    exact ⟨i, h1, h2, by rw [hv]⟩
  | none =>
    right
    exact ⟨searchCaptureGroup_none_spec hs, rfl⟩

/-- C8: a document whose table-detection call raises yields no tables
(an error message naming it is shown) and the batch loop continues with
the remaining documents from the updated state, the accumulated rows
unchanged; a non-PDF-named input is skipped with a warning and the
batch likewise continues. -/
theorem c8_per_document_isolation :
    ∀ (s : BatchState) (d : Doc) (rest : List Doc),
      (pyEndsWith (strLower d.name) ".pdf" = true → d.tables = none →
        process_document s d = some
          { appended := s.appended
            fieldmaps := s.fieldmaps ++
              [{ fields := read_and_extract_patterns d.text, filename := d.name }]
            messages := s.messages ++ ["Error extracting tables from " ++ d.name] } ∧
        run_from s (d :: rest) = run_from
          { appended := s.appended
            fieldmaps := s.fieldmaps ++
              [{ fields := read_and_extract_patterns d.text, filename := d.name }]
            messages := s.messages ++ ["Error extracting tables from " ++ d.name] } rest) ∧
      (pyEndsWith (strLower d.name) ".pdf" = false →
        process_document s d = some
          { s with messages := s.messages ++ ["Skipping non-PDF file: " ++ d.name] } ∧
        run_from s (d :: rest) = run_from
          { s with messages := s.messages ++ ["Skipping non-PDF file: " ++ d.name] } rest) := by
  intro s d rest
  constructor
  · intro hpdf htab
    have hstep : process_document s d = some
        { appended := s.appended
          fieldmaps := s.fieldmaps ++
            [{ fields := read_and_extract_patterns d.text, filename := d.name }]
          messages := s.messages ++ ["Error extracting tables from " ++ d.name] } := by
      rw [process_document, hpdf, htab]
      rfl
    exact ⟨hstep, by rw [run_from, hstep]⟩
  · intro hpdf
    have hstep : process_document s d = some
        { s with messages := s.messages ++ ["Skipping non-PDF file: " ++ d.name] } := by
      rw [process_document, hpdf]
      rfl
    exact ⟨hstep, by rw [run_from, hstep]⟩

/-- C4: on a concatenated row sequence whose "Land Item and Property
ID" values are all present (the masked assignment of line 161 raises
otherwise), the derived PID column is exactly the spec's one-row
lookahead — each row's own value when it contains "PID", else the next
row's value — and afterwards precisely the rows with a present
"Land Item No." survive the drop, in order. -/
theorem c4_pid_derivation (rows : List NormalizedRow)
    (h : rows.all (fun r => r.land_item_and_property_id.isSome) = true) :
    derive_pid rows = some (derived_pid_spec rows) ∧
    (∀ p, p ∈ drop_missing_item_no (derived_pid_spec rows) ↔
      p ∈ derived_pid_spec rows ∧ p.row.land_item_no.isSome = true) ∧
    (drop_missing_item_no (derived_pid_spec rows)).Sublist (derived_pid_spec rows) := by
  refine ⟨derive_pid_eq_spec h, ?_, List.filter_sublist _⟩
  intro p
  rw [drop_missing_item_no, List.mem_filter]

/-- C4, witness: the spec's example — row A ("LOT 5") takes the next
row's "PID 12345"; row B ("PID 12345", which contains "PID") keeps its
own value and is then dropped for its missing "Land Item No.". -/
theorem c4_witness :
    (derive_pid [c4_rowA, c4_rowB] = some (derived_pid_spec [c4_rowA, c4_rowB]) ∧
      (∀ p, p ∈ drop_missing_item_no (derived_pid_spec [c4_rowA, c4_rowB]) ↔
        p ∈ derived_pid_spec [c4_rowA, c4_rowB] ∧ p.row.land_item_no.isSome = true) ∧
      (drop_missing_item_no (derived_pid_spec [c4_rowA, c4_rowB])).Sublist
        (derived_pid_spec [c4_rowA, c4_rowB])) ∧
    derived_pid_spec [c4_rowA, c4_rowB] =
      [{ row := c4_rowA, pid := some "PID 12345" },
       { row := c4_rowB, pid := some "PID 12345" }] ∧
    drop_missing_item_no (derived_pid_spec [c4_rowA, c4_rowB]) =
      [{ row := c4_rowA, pid := some "PID 12345" }] :=
  ⟨c4_pid_derivation [c4_rowA, c4_rowB] (by decide), by decide, by decide⟩

/-- C10: in a non-empty concatenated sequence (with every "Land Item
and Property ID" present), the last row, when its own value does not
contain "PID", gets a missing PID — there is no next row — and, when
its "Land Item No." is present, it survives the drop and appears in
the final row set with that missing PID. -/
theorem c10_last_row_missing_pid (rows : List NormalizedRow) (r : NormalizedRow)
    (hall : rows.all (fun row => row.land_item_and_property_id.isSome) = true)
    (hlast : rows.getLast? = some r)
    (hnp : strContainsSub (cellStr r.land_item_and_property_id) "PID" = false) :
    derive_pid rows = some (derived_pid_spec rows) ∧
    (derived_pid_spec rows).getLast? = some { row := r, pid := none } ∧
    (r.land_item_no.isSome = true →
      { row := r, pid := (none : Cell) } ∈ drop_missing_item_no (derived_pid_spec rows)) := by
  have h1 := derive_pid_eq_spec hall
  have h2 := derived_pid_spec_getLast? hlast
  rw [hnp] at h2
  simp only [Bool.false_eq_true, if_false] at h2
  refine ⟨h1, h2, ?_⟩
  intro hno
  have hmem : { row := r, pid := (none : Cell) } ∈ derived_pid_spec rows :=
    List.mem_of_mem_getLast? h2
  rw [drop_missing_item_no, List.mem_filter]
  exact ⟨hmem, hno⟩

/-- C10, witness: a one-row sequence whose row has "LOT 9" (no "PID")
and a present "Land Item No.": it ends with a missing PID and survives
into the final row set. -/
theorem c10_witness :
    derive_pid [c10_row] = some (derived_pid_spec [c10_row]) ∧
    (derived_pid_spec [c10_row]).getLast? = some { row := c10_row, pid := none } ∧
    (c10_row.land_item_no.isSome = true →
      { row := c10_row, pid := (none : Cell) } ∈ drop_missing_item_no (derived_pid_spec [c10_row])) :=
  c10_last_row_missing_pid [c10_row] c10_row (by decide) (by decide) (by decide)

/-- C1, counterexample: the claim's own end-to-end batch — document 1
with 3 valid rows and a FieldMap, document 2 with zero tables and an
all-empty FieldMap — produces 4 final rows, not 3, because
`pd.merge(pattern_values_df, final_result, how="left")` keeps the
second document's FieldMap row as an output row with missing table
columns; exactly one final row is attributable to the second document. -/
theorem c1_counterexample :
    main_result [c1_doc1, c1_doc2] = some (FinalDisplay.merged c1_rows) ∧
    c1_rows.length = 4 ∧ ¬ c1_rows.length = 3 ∧
    (c1_rows.filter (fun r => r.filename = "b.pdf")).length = 1 := by
  exact ⟨by decide, by decide, by decide, by decide⟩

/-- C1 (amended): the final merge is a left join with the FieldMap
table on the LEFT, so every FieldMap row is kept: the output length is
the sum, over FieldMaps, of the number of surviving table rows sharing
the FieldMap's filename — or 1 when there is none, the FieldMap then
surfacing as a fields-only row.  In the claim's two-document example
the output has 4 rows: 3 for the first document and 1, with missing
table columns, for the second. -/
theorem c1_left_merge_count :
    (∀ (fms : List FieldRow) (rows : List ResultRowPre),
      (merge_left fms rows).length =
        (fms.map (fun fm =>
          max 1 (rows.filter (fun r => r.row.filename = fm.filename)).length)).sum) ∧
    c1_rows.length = 4 ∧
    (c1_rows.filter (fun r => r.filename = "a.pdf")).length = 3 ∧
    (c1_rows.filter (fun r => r.filename = "b.pdf")).length = 1 := by
  refine ⟨?_, by decide, by decide, by decide⟩
  intro fms rows
  induction fms with
  | nil => rfl
  | cons fm rest ih =>
    rw [merge_left, List.flatMap_cons, List.length_append]
    rw [show (List.flatMap rest _).length = (merge_left rest rows).length from rfl, ih]
    rw [List.map_cons, List.sum_cons]
    congr 1
    by_cases hms : (rows.filter (fun r => r.row.filename = fm.filename)).isEmpty
    · rw [if_pos hms]
      have : (rows.filter (fun r => r.row.filename = fm.filename)).length = 0 :=
        List.isEmpty_iff_length_eq_zero.1 hms
      rw [this]
      rfl
    · rw [if_neg hms]
      rw [List.length_map]
      have : (rows.filter (fun r => r.row.filename = fm.filename)).length ≠ 0 := by
        intro h0
        exact hms (List.isEmpty_iff_length_eq_zero.2 h0)
      omega

end LandTax
